import Mathlib

/-!
Verification development for the Aquasentra coastal-hazard reporting backend.

The definitions below are a shallow embedding of the Express/Sequelize
backend (`Backend(Final)/src/config/database.js` routes, the Sequelize
`Report` model with its hooks, the Sequelize `User` model, and the map
clustering route).  Route handlers are modelled as pure functions from the
acting user, the stored record and the request payload to an
`Except ApiError Report`; an `Except.error` result corresponds to an HTTP
error response sent before the record is saved, so the stored record is
unchanged in that case (`runUpdate` makes that explicit).  Timestamps are
abstract `Nat` clock values; JS floats for coordinates are modelled as `Rat`.
-/

namespace Aquasentra

/-- Role enum of the Sequelize `User` model: citizen | verifier | analyst | admin. -/
inductive Role
  | citizen
  | verifier
  | analyst
  | admin
  deriving DecidableEq, Repr

/-- Status values a report record can carry at the JS level.  The Sequelize
enum lists pending | verified | rejected | under_review | resolved; the
DELETE route additionally assigns the string 'deleted' for soft deletion,
so it appears as a constructor here. -/
inductive Status
  | pending
  | verified
  | rejected
  | under_review
  | resolved
  | deleted
  deriving DecidableEq, Repr

/-- Severity enum: low | medium | high | critical. -/
inductive Severity
  | low
  | medium
  | high
  | critical
  deriving DecidableEq, Repr

/-- Urgency enum: routine | urgent | immediate | emergency. -/
inductive Urgency
  | routine
  | urgent
  | immediate
  | emergency
  deriving DecidableEq, Repr

/-- Hazard type enum (ten values, hyphens became camelCase). -/
inductive HazardType
  | flood
  | highWaves
  | coastalErosion
  | stormSurge
  | tsunami
  | oilSpill
  | marineDebris
  | redTide
  | infrastructureDamage
  | other
  deriving DecidableEq, Repr

/-- Visibility enum: public | restricted | private ('private' is a Lean
keyword, embedded as `priv`). -/
inductive Visibility
  | public
  | restricted
  | priv
  deriving DecidableEq, Repr

/-- Verification-level enum of the `Report` model. -/
inductive VerificationLevel
  | unverified
  | community_verified
  | expert_verified
  | official_verified
  deriving DecidableEq, Repr

/-- User account status enum: active | inactive | suspended | pending. -/
inductive AccountStatus
  | active
  | inactive
  | suspended
  | pending
  deriving DecidableEq, Repr

/-- User-side verification level enum. -/
inductive UserVerificationLevel
  | unverified
  | email_verified
  | phone_verified
  | fully_verified
  deriving DecidableEq, Repr

/-- The Sequelize `User` model (`backend/src/models/User.js`).  The JSONB
`preferences` column is modelled as its serialized string. -/
structure User where
  id : Nat
  firstName : String
  lastName : String
  email : String
  password : String
  role : Role
  status : AccountStatus
  profileImage : Option String
  phoneNumber : Option String
  organizationName : Option String
  expertiseArea : Option String
  verificationLevel : UserVerificationLevel
  lastActiveAt : Option Nat
  preferences : String
  resetPasswordToken : Option String
  resetPasswordExpires : Option Nat
  emailVerificationToken : Option String
  emailVerifiedAt : Option Nat
  deriving DecidableEq, Repr

/-- `User.prototype.canVerifyReports`: role is one of verifier, analyst, admin. -/
def User.canVerifyReports (u : User) : Bool :=
  [Role.verifier, Role.analyst, Role.admin].contains u.role

/-- `User.prototype.canManageUsers`: role is admin. -/
def User.canManageUsers (u : User) : Bool :=
  [Role.admin].contains u.role

/-- Shape of the object produced by `User.prototype.toJSON`: every `User`
attribute except `password`, `resetPasswordToken` and
`emailVerificationToken`, which the method deletes before returning. -/
structure UserJSON where
  id : Nat
  firstName : String
  lastName : String
  email : String
  role : Role
  status : AccountStatus
  profileImage : Option String
  phoneNumber : Option String
  organizationName : Option String
  expertiseArea : Option String
  verificationLevel : UserVerificationLevel
  lastActiveAt : Option Nat
  preferences : String
  resetPasswordExpires : Option Nat
  emailVerifiedAt : Option Nat
  deriving DecidableEq, Repr

/-- `User.prototype.toJSON`: copy the record's values and delete the
`password`, `resetPasswordToken` and `emailVerificationToken` fields. -/
def User.toJSON (u : User) : UserJSON :=
  { id := u.id
    firstName := u.firstName
    lastName := u.lastName
    email := u.email
    role := u.role
    status := u.status
    profileImage := u.profileImage
    phoneNumber := u.phoneNumber
    organizationName := u.organizationName
    expertiseArea := u.expertiseArea
    verificationLevel := u.verificationLevel
    lastActiveAt := u.lastActiveAt
    preferences := u.preferences
    resetPasswordExpires := u.resetPasswordExpires
    emailVerifiedAt := u.emailVerifiedAt }

/-- The Sequelize `Report` model (the fields the routes and hooks touch).
The JSONB `location` column is split into its `lat` and `lng` numbers. -/
structure Report where
  id : Nat
  hazardType : HazardType
  severity : Severity
  urgency : Urgency
  description : String
  lat : Rat
  lng : Rat
  address : Option String
  status : Status
  verificationLevel : VerificationLevel
  visibility : Visibility
  submittedById : Nat
  verifiedById : Option Nat
  verifiedAt : Option Nat
  rejectionReason : Option String
  isEmergency : Bool
  publicId : String
  expiresAt : Option Nat
  deriving DecidableEq, Repr

/-- The trim applied by the express-validator `.trim()` sanitizer and by
JS `String.prototype.trim`: strip leading and trailing whitespace.
Implemented structurally over the character list so it evaluates inside
the kernel (`String.trim` itself does not reduce). -/
def trimChars (l : List Char) : List Char :=
  ((l.dropWhile Char.isWhitespace).reverse.dropWhile Char.isWhitespace).reverse

/-- String form of `trimChars`. -/
def strTrim (s : String) : String :=
  String.mk (trimChars s.data)

/-- Uppercase base-36 digit, as produced by
`Number.prototype.toString(36).toUpperCase()`. -/
def b36Char (d : Nat) : Char :=
  if d < 10 then Char.ofNat (48 + d) else Char.ofNat (55 + d)

/-- Base-36 rendering, most significant digit first; `fuel` starts at the
number itself, which bounds the digit count, so the recursion is
structural and kernel-evaluable. -/
def toB36Go : Nat → Nat → List Char → List Char
  | 0, n, acc => b36Char (n % 36) :: acc
  | fuel + 1, n, acc =>
    if n < 36 then b36Char n :: acc
    else toB36Go fuel (n / 36) (b36Char (n % 36) :: acc)

/-- `Date.now().toString(36).toUpperCase()` on an abstract millisecond clock. -/
def toB36 (n : Nat) : String :=
  String.mk (toB36Go n n [])

/-- `Math.random().toString(36).substr(2, 5).toUpperCase()`: five uppercase
base-36 characters drawn from an abstract randomness seed. -/
def randSuffix (seed : Nat) : String :=
  String.mk ((List.range 5).map (fun i => b36Char (seed / 36 ^ i % 36)))

/-- Public id generated by the `Report` beforeCreate hook:
`'RPT' + Date.now().toString(36).toUpperCase() + random suffix`. -/
def genPublicId (nowMs seed : Nat) : String :=
  "RPT" ++ toB36 nowMs ++ randSuffix seed

/-- Retention window the hooks use for resolved reports ("now + 90 days"),
on the abstract clock. -/
def retentionDays : Nat := 90

/-- The `Report` beforeCreate hook: generate the public id, set the
emergency flag from severity and urgency, and set `expiresAt` when the
record is created already resolved. -/
def beforeCreate (nowMs seed : Nat) (r : Report) : Report :=
  let r1 := { r with publicId := genPublicId nowMs seed }
  let r2 := { r1 with
    isEmergency := decide (r1.severity = Severity.critical) ||
                   decide (r1.urgency = Urgency.emergency) }
  if r2.status = Status.resolved then
    { r2 with expiresAt := some (nowMs + retentionDays) }
  else r2

/-- First statement of the `Report` beforeUpdate hook: when the status
changed to 'verified', stamp `verifiedAt`.  `orig` is the record as it was
loaded, so "changed" means the field differs from `orig`. -/
def beforeUpdateStamp (orig : Report) (now : Nat) (r : Report) : Report :=
  if r.status ≠ orig.status ∧ r.status = Status.verified then
    { r with verifiedAt := some now }
  else r

/-- Second statement of the beforeUpdate hook: when the status changed to
'resolved', set the 90-day `expiresAt`. -/
def beforeUpdateExpiry (orig : Report) (now : Nat) (r : Report) : Report :=
  if r.status ≠ orig.status ∧ r.status = Status.resolved then
    { r with expiresAt := some (now + retentionDays) }
  else r

/-- The `Report` beforeUpdate hook, run by `report.save()` on an existing
record: the verified-stamp statement followed by the resolved-expiry
statement. -/
def beforeUpdate (orig : Report) (now : Nat) (r : Report) : Report :=
  beforeUpdateExpiry orig now (beforeUpdateStamp orig now r)

/-- Error responses a route can send instead of saving the record. -/
inductive ApiError
  | notFound
  | validationFailed
  | accessDenied
  | notPending
  | serverError
  deriving DecidableEq, Repr

/-- State of the stored record after a request: the saved record on
success, the untouched original when the route answered with an error
before saving. -/
def runUpdate (orig : Report) (res : Except ApiError Report) : Report :=
  match res with
  | Except.ok r => r
  | Except.error _ => orig

/-- Modelled from the spec: the `requireRole` middleware
(`middleware/authorization`, not present under src/) admits the request
exactly when the acting user's role is in the given list, per the spec's
access-policy contract for verify/reject ("permitted only if actor role ∈
\x7bverifier, analyst, admin\x7d"). -/
def requireRole (roles : List Role) (u : User) : Bool :=
  roles.contains u.role

/-- Request body of `POST /api/reports` (the fields the creation validators
and the `Report.create` call use).  `urgency` is optional in the body and
defaults to 'routine' in the handler's destructuring. -/
structure CreateInput where
  hazardType : HazardType
  severity : Severity
  urgency : Option Urgency
  description : String
  lat : Rat
  lng : Rat
  address : Option String
  deriving DecidableEq, Repr

/-- The `validateReportCreation` middleware: hazard type, severity and
urgency must be in their enums (enforced here by the types), the trimmed
description must be 10–2000 characters, latitude in [-90, 90], longitude
in [-180, 180], and the optional trimmed address at most 500 characters. -/
def validateReportCreation (inp : CreateInput) : Bool :=
  decide (10 ≤ (strTrim inp.description).length) &&
  decide ((strTrim inp.description).length ≤ 2000) &&
  decide ((-90 : Rat) ≤ inp.lat) && decide (inp.lat ≤ 90) &&
  decide ((-180 : Rat) ≤ inp.lng) && decide (inp.lng ≤ 180) &&
  (match inp.address with
   | none => true
   | some a => decide ((strTrim a).length ≤ 500))

/-- Initial record the POST handler passes to `Report.create`, before the
beforeCreate hook runs. -/
def initialRecord (actorId newId : Nat) (inp : CreateInput) : Report :=
  { id := newId
    hazardType := inp.hazardType
    severity := inp.severity
    urgency := inp.urgency.getD Urgency.routine
    description := strTrim inp.description
    lat := inp.lat
    lng := inp.lng
    address := inp.address
    status := Status.pending
    verificationLevel := VerificationLevel.unverified
    visibility := Visibility.public
    submittedById := actorId
    verifiedById := none
    verifiedAt := none
    rejectionReason := none
    isEmergency := false
    publicId := ""
    expiresAt := none }

/-- `POST /api/reports`: run the creation validators, build the record with
the model defaults (status 'pending', verificationLevel 'unverified',
visibility 'public', no verifier, no rejection reason), run the
beforeCreate hook, and insert it.  The `publicId` column carries a unique
constraint, so an insert whose generated public id collides with an
existing row raises and the handler answers 500 with nothing written;
`db` is the list of already stored reports. -/
def createReport (actorId : Nat) (inp : CreateInput) (db : List Report)
    (nowMs seed newId : Nat) : Except ApiError Report :=
  if ¬ validateReportCreation inp then Except.error ApiError.validationFailed
  else
    let r := beforeCreate nowMs seed (initialRecord actorId newId inp)
    if db.any (fun x => x.publicId = r.publicId) then
      Except.error ApiError.serverError
    else Except.ok r

/-- The `canView` check of `GET /api/reports/:id`: the actor submitted the
report, or the actor's role is not citizen, or the report is public. -/
def canViewReport (actor : User) (report : Report) : Bool :=
  decide (report.submittedById = actor.id) ||
  decide (actor.role ≠ Role.citizen) ||
  decide (report.visibility = Visibility.public)

/-- `GET /api/reports/:id`, for a report the lookup found: answer 403
without the report's data unless `canView` holds. -/
def getReport (actor : User) (report : Report) : Except ApiError Report :=
  if canViewReport actor report then Except.ok report
  else Except.error ApiError.accessDenied

/-- A key/value pair of the PUT body other than `status` and
`rejectionReason` (those two are destructured off before the
`otherUpdates` loop).  The route copies any such pair into the record
verbatim; this is a representative set of assignable columns, including
the ones the claims exercise. -/
inductive FieldUpdate
  | hazardType (v : HazardType)
  | severity (v : Severity)
  | urgency (v : Urgency)
  | description (v : String)
  | address (v : Option String)
  | visibility (v : Visibility)
  | verificationLevel (v : VerificationLevel)
  | isEmergency (v : Bool)
  | publicId (v : String)
  deriving DecidableEq, Repr

/-- One iteration of the `Object.keys(otherUpdates).forEach` loop:
`report[key] = otherUpdates[key]`. -/
def applyFieldUpdate (r : Report) (u : FieldUpdate) : Report :=
  match u with
  | FieldUpdate.hazardType v => { r with hazardType := v }
  | FieldUpdate.severity v => { r with severity := v }
  | FieldUpdate.urgency v => { r with urgency := v }
  | FieldUpdate.description v => { r with description := v }
  | FieldUpdate.address v => { r with address := v }
  | FieldUpdate.visibility v => { r with visibility := v }
  | FieldUpdate.verificationLevel v => { r with verificationLevel := v }
  | FieldUpdate.isEmergency v => { r with isEmergency := v }
  | FieldUpdate.publicId v => { r with publicId := v }

/-- The `validateReportUpdate` middleware: an optional status restricted to
the five enum values (so 'deleted' is refused), and an optional trimmed
rejection reason of at most 1000 characters. -/
def validateReportUpdate (status? : Option Status) (rejectionReason? : Option String) :
    Bool :=
  (match status? with
   | some st => decide (st ≠ Status.deleted)
   | none => true) &&
  (match rejectionReason? with
   | none => true
   | some s => decide ((strTrim s).length ≤ 1000))

/-- JS truthiness of the (already trimmed) `rejectionReason` body field. -/
def truthyReason (rr : Option String) : Bool :=
  match rr with
  | none => false
  | some s => decide (s ≠ "")

/-- The `canUpdate` permission check of `PUT /api/reports/:id`: the actor
submitted the report, or has verification rights and the report is pending
or under review. -/
def canUpdateReport (actor : User) (report : Report) : Bool :=
  decide (report.submittedById = actor.id) ||
  (actor.canVerifyReports &&
    [Status.pending, Status.under_review].contains report.status)

/-- The status-change block of `PUT /api/reports/:id`: when a status is
supplied and differs from the current one, an actor with verification
rights may move it to 'verified' or 'rejected' (stamping verifier and
timestamp, and storing the reason only when one was supplied with a
rejection), and the owner may move it to 'under_review'; any other
supplied status is silently ignored.  `rr` is the already-trimmed
rejection reason from the body. -/
def putStatusChange (actor : User) (report : Report) (status? : Option Status)
    (rr : Option String) (now : Nat) : Report :=
  match status? with
  | some st =>
    if st ≠ report.status then
      if (st = Status.verified ∨ st = Status.rejected) ∧ actor.canVerifyReports then
        if st = Status.rejected ∧ truthyReason rr then
          { report with
            status := st
            verifiedById := some actor.id
            verifiedAt := some now
            rejectionReason := rr }
        else
          { report with
            status := st
            verifiedById := some actor.id
            verifiedAt := some now }
      else if report.submittedById = actor.id ∧ st = Status.under_review then
        { report with status := st }
      else report
    else report
  | none => report

/-- `PUT /api/reports/:id`: validators, then the `canUpdate` permission
check, then the status-change block, then the `otherUpdates` loop copying
every remaining body key into the record (guarded by owner-or-verifier,
which `canUpdate` already implies), then `report.save()` which runs the
beforeUpdate hook. -/
def putReport (actor : User) (report : Report) (status? : Option Status)
    (rejectionReason? : Option String) (otherUpdates : List FieldUpdate)
    (now : Nat) : Except ApiError Report :=
  if ¬ validateReportUpdate status? rejectionReason? then
    Except.error ApiError.validationFailed
  else if ¬ canUpdateReport actor report then
    Except.error ApiError.accessDenied
  else
    let r1 := putStatusChange actor report status? (rejectionReason?.map strTrim) now
    let r2 :=
      if report.submittedById = actor.id ∨ actor.canVerifyReports then
        otherUpdates.foldl applyFieldUpdate r1
      else r1
    Except.ok (beforeUpdate report now r2)

/-- `DELETE /api/reports/:id`: only the owner or an admin may soft-delete;
the record is saved with status 'deleted' and visibility 'private'. -/
def deleteReport (actor : User) (report : Report) (now : Nat) :
    Except ApiError Report :=
  if report.submittedById ≠ actor.id ∧ actor.role ≠ Role.admin then
    Except.error ApiError.accessDenied
  else
    Except.ok (beforeUpdate report now
      { report with status := Status.deleted, visibility := Visibility.priv })

/-- The `findOne` condition of `GET /api/reports/public/:publicId`: public
id match, visibility 'public', status in ['verified', 'resolved']. -/
def publicLookupMatch (publicId : String) (r : Report) : Bool :=
  decide (r.publicId = publicId) &&
  decide (r.visibility = Visibility.public) &&
  (decide (r.status = Status.verified) || decide (r.status = Status.resolved))

/-- `GET /api/reports/public/:publicId` (unauthenticated): answer the first
report matching the public lookup condition, or 404 with no report data. -/
def getPublicReport (db : List Report) (publicId : String) :
    Except ApiError Report :=
  match db.find? (publicLookupMatch publicId) with
  | some r => Except.ok r
  | none => Except.error ApiError.notFound

/-- `POST /api/reports/:id/verify`: `requireRole(['verifier', 'analyst',
'admin'])`, then a 400 unless the report is pending, then the record is
saved with status 'verified', the requested verification level (default
'expert_verified'), the acting verifier and the timestamp. -/
def verifyReport (actor : User) (report : Report)
    (verificationLevel : VerificationLevel) (now : Nat) :
    Except ApiError Report :=
  if ¬ requireRole [Role.verifier, Role.analyst, Role.admin] actor then
    Except.error ApiError.accessDenied
  else if report.status ≠ Status.pending then
    Except.error ApiError.notPending
  else
    Except.ok (beforeUpdate report now
      { report with
        status := Status.verified
        verificationLevel := verificationLevel
        verifiedById := some actor.id
        verifiedAt := some now })

/-- The reject route's validator on `body('reason')`: the trimmed reason
must be present and 10–1000 characters. -/
def validReason (reason : Option String) : Bool :=
  match reason with
  | none => false
  | some s => decide (10 ≤ (strTrim s).length) && decide ((strTrim s).length ≤ 1000)

/-- `POST /api/reports/:id/reject`: `requireRole(['verifier', 'analyst',
'admin'])`, then the reason validator, then a 400 unless the report is
pending, then the record is saved with status 'rejected', the trimmed
reason, the acting verifier and the timestamp. -/
def rejectReport (actor : User) (report : Report) (reason : Option String)
    (now : Nat) : Except ApiError Report :=
  if ¬ requireRole [Role.verifier, Role.analyst, Role.admin] actor then
    Except.error ApiError.accessDenied
  else if ¬ validReason reason then
    Except.error ApiError.validationFailed
  else if report.status ≠ Status.pending then
    Except.error ApiError.notPending
  else
    Except.ok (beforeUpdate report now
      { report with
        status := Status.rejected
        rejectionReason := reason.map strTrim
        verifiedById := some actor.id
        verifiedAt := some now })

/-- `GET /api/map/clusters` rounding precision:
`Math.max(1, Math.floor(zoom / 3))` on the integer zoom level. -/
def clusterPrecision (zoom : Nat) : Nat :=
  max 1 (zoom / 3)

/-- The record invariant claimed for rejection data: a rejection reason is
stored exactly on rejected reports. -/
def reasonMatchesStatus (r : Report) : Prop :=
  r.rejectionReason ≠ none ↔ r.status = Status.rejected

/-- Concrete citizen account used to evaluate the handlers. -/
def citizenUser : User :=
  { id := 1, firstName := "Asha", lastName := "Rao", email := "asha@example.com",
    password := "hashedpw1", role := Role.citizen, status := AccountStatus.active,
    profileImage := none, phoneNumber := none, organizationName := none,
    expertiseArea := none, verificationLevel := UserVerificationLevel.unverified,
    lastActiveAt := none, preferences := "{}", resetPasswordToken := none,
    resetPasswordExpires := none, emailVerificationToken := none,
    emailVerifiedAt := none }

/-- Concrete verifier account. -/
def verifierUser : User :=
  { citizenUser with
    id := 2
    firstName := "Vik"
    email := "vik@example.com"
    role := Role.verifier }

/-- The citizen account with different secret fields and identical public
fields, for exercising `User.toJSON`. -/
def citizenUserAltSecrets : User :=
  { citizenUser with
    password := "hashedpw2"
    resetPasswordToken := some "reset-token-a"
    emailVerificationToken := some "email-token-b" }

/-- Concrete valid creation payload. -/
def sampleInput : CreateInput :=
  { hazardType := HazardType.flood, severity := Severity.low, urgency := none,
    description := "waterisrisingfast", lat := 10, lng := 20, address := none }

/-- The record `createReport 1 sampleInput [] 1000 777 5` stores. -/
def sampleReport : Report :=
  { id := 5, hazardType := HazardType.flood, severity := Severity.low,
    urgency := Urgency.routine, description := "waterisrisingfast",
    lat := 10, lng := 20, address := none, status := Status.pending,
    verificationLevel := VerificationLevel.unverified,
    visibility := Visibility.public, submittedById := 1,
    verifiedById := none, verifiedAt := none, rejectionReason := none,
    isEmergency := false, publicId := genPublicId 1000 777, expiresAt := none }

/-- A verified public report for the public-endpoint fixtures. -/
def verifiedPublicReport : Report :=
  { sampleReport with
    id := 6
    status := Status.verified
    publicId := "RPTPUBOK1"
    verifiedById := some 2
    verifiedAt := some 1500 }

/-- A pending report for the public-endpoint fixtures. -/
def pendingFixtureReport : Report :=
  { sampleReport with id := 7, publicId := "RPTPEND01" }

/-- Fixture collection for the public endpoint. -/
def fixtureDb : List Report :=
  [verifiedPublicReport, pendingFixtureReport]

/-- A second citizen account that does not own `sampleReport`. -/
def otherCitizen : User :=
  { citizenUser with id := 3, email := "neel@example.com" }

/-- The sample report with visibility 'private'. -/
def privateReport : Report :=
  { sampleReport with visibility := Visibility.priv }

theorem requireRole_iff (roles : List Role) (u : User) :
    requireRole roles u = true ↔ u.role ∈ roles := by
  simp [requireRole, List.contains_iff_exists_mem_beq, beq_iff_eq]

theorem canVerifyReports_iff (u : User) :
    u.canVerifyReports = true ↔
      u.role ∈ [Role.verifier, Role.analyst, Role.admin] := by
  simp [User.canVerifyReports, List.contains_iff_exists_mem_beq, beq_iff_eq]

theorem beforeUpdate_publicId (orig : Report) (now : Nat) (r : Report) :
    (beforeUpdate orig now r).publicId = r.publicId := by
  unfold beforeUpdate beforeUpdateExpiry beforeUpdateStamp
  split <;> split <;> rfl

theorem beforeUpdate_isEmergency (orig : Report) (now : Nat) (r : Report) :
    (beforeUpdate orig now r).isEmergency = r.isEmergency := by
  unfold beforeUpdate beforeUpdateExpiry beforeUpdateStamp
  split <;> split <;> rfl

theorem beforeUpdate_status (orig : Report) (now : Nat) (r : Report) :
    (beforeUpdate orig now r).status = r.status := by
  unfold beforeUpdate beforeUpdateExpiry beforeUpdateStamp
  split <;> split <;> rfl

theorem beforeUpdate_rejectionReason (orig : Report) (now : Nat) (r : Report) :
    (beforeUpdate orig now r).rejectionReason = r.rejectionReason := by
  unfold beforeUpdate beforeUpdateExpiry beforeUpdateStamp
  split <;> split <;> rfl

theorem beforeUpdate_verifiedById (orig : Report) (now : Nat) (r : Report) :
    (beforeUpdate orig now r).verifiedById = r.verifiedById := by
  unfold beforeUpdate beforeUpdateExpiry beforeUpdateStamp
  split <;> split <;> rfl

theorem applyFieldUpdate_publicId (r : Report) (u : FieldUpdate)
    (h : ∀ s, u ≠ FieldUpdate.publicId s) :
    (applyFieldUpdate r u).publicId = r.publicId := by
  cases u <;> first | rfl | exact absurd rfl (h _)

theorem foldl_applyFieldUpdate_publicId (l : List FieldUpdate)
    (h : ∀ s, FieldUpdate.publicId s ∉ l) (r : Report) :
    (l.foldl applyFieldUpdate r).publicId = r.publicId := by
  induction l generalizing r with
  | nil => rfl
  | cons u t ih =>
    rw [List.foldl_cons,
      ih (fun s hs => h s (List.mem_cons_of_mem u hs)) (applyFieldUpdate r u),
      applyFieldUpdate_publicId r u (fun s he => h s (he ▸ List.mem_cons_self u t))]

theorem beforeCreate_eq (nowMs seed : Nat) (r : Report)
    (h : r.status ≠ Status.resolved) :
    beforeCreate nowMs seed r =
      { r with
        publicId := genPublicId nowMs seed
        isEmergency := decide (r.severity = Severity.critical) ||
                       decide (r.urgency = Urgency.emergency) } := by
  simp [beforeCreate, h]

theorem genPublicId_ne_empty (nowMs seed : Nat) : genPublicId nowMs seed ≠ "" := by
  intro h
  have hd : (genPublicId nowMs seed).data = ("" : String).data := by rw [h]
  rw [genPublicId] at hd
  simp [String.data_append] at hd

theorem createReport_ok_inv (actorId : Nat) (inp : CreateInput) (db : List Report)
    (nowMs seed newId : Nat) (r : Report)
    (h : createReport actorId inp db nowMs seed newId = Except.ok r) :
    validateReportCreation inp = true ∧
    r = beforeCreate nowMs seed (initialRecord actorId newId inp) ∧
    ∀ x ∈ db, x.publicId ≠ r.publicId := by
  simp only [createReport] at h
  split at h
  · exact absurd h (by simp)
  · rename_i h1
    split at h
    · exact absurd h (by simp)
    · rename_i h2
      rw [Except.ok.injEq] at h
      subst h
      refine ⟨by simpa using h1, rfl, ?_⟩
      intro x hx hpid
      exact h2 (List.any_eq_true.mpr ⟨x, hx, by simp [hpid]⟩)

theorem verifyReport_ok_inv (actor : User) (report : Report)
    (vl : VerificationLevel) (now : Nat) (s : Report)
    (h : verifyReport actor report vl now = Except.ok s) :
    requireRole [Role.verifier, Role.analyst, Role.admin] actor = true ∧
    report.status = Status.pending ∧
    s = { report with
      status := Status.verified
      verificationLevel := vl
      verifiedById := some actor.id
      verifiedAt := some now } := by
  by_cases h1 : requireRole [Role.verifier, Role.analyst, Role.admin] actor = true
  · by_cases h2 : report.status = Status.pending
    · refine ⟨h1, h2, ?_⟩
      simp [verifyReport, h1, h2, beforeUpdate, beforeUpdateStamp, beforeUpdateExpiry] at h
      exact h.symm
    · simp [verifyReport, h1, h2] at h
  · simp [verifyReport, h1] at h

theorem rejectReport_ok_inv (actor : User) (report : Report)
    (reason : Option String) (now : Nat) (s : Report)
    (h : rejectReport actor report reason now = Except.ok s) :
    requireRole [Role.verifier, Role.analyst, Role.admin] actor = true ∧
    validReason reason = true ∧
    report.status = Status.pending ∧
    s = { report with
      status := Status.rejected
      rejectionReason := reason.map strTrim
      verifiedById := some actor.id
      verifiedAt := some now } := by
  by_cases h1 : requireRole [Role.verifier, Role.analyst, Role.admin] actor = true
  · by_cases h2 : validReason reason = true
    · by_cases h3 : report.status = Status.pending
      · refine ⟨h1, h2, h3, ?_⟩
        simp [rejectReport, h1, h2, h3, beforeUpdate, beforeUpdateStamp,
          beforeUpdateExpiry] at h
        exact h.symm
      · simp [rejectReport, h1, h2, h3] at h
    · simp [rejectReport, h1, h2] at h
  · simp [rejectReport, h1] at h

theorem putStatusChange_publicId (actor : User) (report : Report)
    (status? : Option Status) (rr : Option String) (now : Nat) :
    (putStatusChange actor report status? rr now).publicId = report.publicId := by
  unfold putStatusChange
  cases status? with
  | none => rfl
  | some st => dsimp only; split_ifs <;> rfl

theorem putReport_ok_publicId (actor : User) (report : Report)
    (status? : Option Status) (rejectionReason? : Option String)
    (otherUpdates : List FieldUpdate) (now : Nat) (s : Report)
    (hno : ∀ v, FieldUpdate.publicId v ∉ otherUpdates)
    (h : putReport actor report status? rejectionReason? otherUpdates now =
      Except.ok s) :
    s.publicId = report.publicId := by
  simp only [putReport] at h
  split at h
  · exact absurd h (by simp)
  · split at h
    · exact absurd h (by simp)
    · rw [Except.ok.injEq] at h
      subst h
      rw [beforeUpdate_publicId]
      split
      · rw [foldl_applyFieldUpdate_publicId otherUpdates hno,
          putStatusChange_publicId]
      · rw [putStatusChange_publicId]

/-- C1: POST /api/reports/:id/verify moves a report to 'verified'
(stamping verifiedById and verifiedAt) exactly when the acting user's
role is verifier, analyst or admin and the report is currently pending;
a disallowed role gets the authorization error, a non-pending report the
state-conflict error, and on every error the stored record is left
unchanged in all fields. -/
theorem verify_transition_guarded (actor : User) (report : Report)
    (vl : VerificationLevel) (now : Nat) :
    ((∃ s, verifyReport actor report vl now = Except.ok s) ↔
      (actor.role ∈ [Role.verifier, Role.analyst, Role.admin] ∧
        report.status = Status.pending))
    ∧ (∀ s, verifyReport actor report vl now = Except.ok s →
        s.status = Status.verified ∧ s.verifiedById = some actor.id ∧
        s.verifiedAt = some now)
    ∧ (actor.role ∉ [Role.verifier, Role.analyst, Role.admin] →
        verifyReport actor report vl now = Except.error ApiError.accessDenied)
    ∧ (actor.role ∈ [Role.verifier, Role.analyst, Role.admin] →
        report.status ≠ Status.pending →
        verifyReport actor report vl now = Except.error ApiError.notPending)
    ∧ (∀ e, verifyReport actor report vl now = Except.error e →
        runUpdate report (verifyReport actor report vl now) = report) := by
  refine ⟨⟨?_, ?_⟩, ?_, ?_, ?_, ?_⟩
  · rintro ⟨s, hs⟩
    obtain ⟨h1, h2, _⟩ := verifyReport_ok_inv actor report vl now s hs
    exact ⟨(requireRole_iff _ actor).mp h1, h2⟩
  · rintro ⟨hrole, hst⟩
    refine ⟨{ report with
        status := Status.verified
        verificationLevel := vl
        verifiedById := some actor.id
        verifiedAt := some now }, ?_⟩
    simp [verifyReport, (requireRole_iff _ actor).mpr hrole, hst,
      beforeUpdate, beforeUpdateStamp, beforeUpdateExpiry]
  · intro s hs
    obtain ⟨_, _, hrec⟩ := verifyReport_ok_inv actor report vl now s hs
    subst hrec
    exact ⟨rfl, rfl, rfl⟩
  · intro hrole
    have h1 : ¬ requireRole [Role.verifier, Role.analyst, Role.admin] actor = true :=
      fun hc => hrole ((requireRole_iff _ actor).mp hc)
    simp [verifyReport, h1]
  · intro hrole hst
    simp [verifyReport, (requireRole_iff _ actor).mpr hrole, hst]
  · intro e he
    simp [runUpdate, he]

theorem verify_transition_guarded_witness :
    verifyReport citizenUser sampleReport VerificationLevel.expert_verified 2000 =
      Except.error ApiError.accessDenied ∧
    verifyReport verifierUser
        { sampleReport with status := Status.verified } VerificationLevel.expert_verified 2000 =
      Except.error ApiError.notPending :=
  ⟨(verify_transition_guarded citizenUser sampleReport
      VerificationLevel.expert_verified 2000).2.2.1 (by decide),
    (verify_transition_guarded verifierUser
      { sampleReport with status := Status.verified }
      VerificationLevel.expert_verified 2000).2.2.2.1 (by decide) (by decide)⟩

/-- C7: GET /api/reports/:id returns the report exactly when the actor
owns it, or the actor's role is not citizen, or the report's visibility
is public; otherwise (a non-owner citizen on a non-public report, in
particular a private one) it answers 403 with no report data. -/
theorem view_access_policy (actor : User) (report : Report) :
    (getReport actor report = Except.ok report ↔
      (report.submittedById = actor.id ∨ actor.role ≠ Role.citizen ∨
        report.visibility = Visibility.public))
    ∧ (¬(report.submittedById = actor.id ∨ actor.role ≠ Role.citizen ∨
        report.visibility = Visibility.public) →
      getReport actor report = Except.error ApiError.accessDenied) := by
  by_cases hv : canViewReport actor report = true
  · have hv' : report.submittedById = actor.id ∨ actor.role ≠ Role.citizen ∨
        report.visibility = Visibility.public := by
      simpa [canViewReport, or_assoc] using hv
    refine ⟨?_, fun hc => absurd hv' hc⟩
    rw [getReport, if_pos hv]
    exact iff_of_true rfl hv'
  · have hv' : ¬(report.submittedById = actor.id ∨ actor.role ≠ Role.citizen ∨
        report.visibility = Visibility.public) := by
      intro hc
      exact hv (by simpa [canViewReport, or_assoc] using hc)
    refine ⟨?_, fun _ => by rw [getReport, if_neg hv]⟩
    rw [getReport, if_neg hv]
    exact iff_of_false (by simp) hv'

theorem view_access_policy_witness :
    getReport otherCitizen privateReport = Except.error ApiError.accessDenied :=
  (view_access_policy otherCitizen privateReport).2 (by decide)

/-- C8: the map-cluster rounding precision `Math.max(1, floor(zoom / 3))`
is monotonically non-decreasing in the zoom level over the validated
range 1..20, so a lower zoom never rounds more finely than a higher one. -/
theorem cluster_precision_monotone (z1 z2 : Nat) (_hlo : 1 ≤ z1)
    (_hhi : z2 ≤ 20) (hz : z1 ≤ z2) :
    clusterPrecision z1 ≤ clusterPrecision z2 := by
  simp only [clusterPrecision]
  exact max_le_max (le_refl 1) (Nat.div_le_div_right hz)

theorem cluster_precision_monotone_witness :
    clusterPrecision 6 ≤ clusterPrecision 12 :=
  cluster_precision_monotone 6 12 (by decide) (by decide) (by decide)

/-- C10: `User.prototype.toJSON` is insensitive to the password,
resetPasswordToken and emailVerificationToken fields: two users equal on
every other attribute serialize to identical objects, so API responses
built from toJSON never expose those three fields. -/
theorem toJSON_independent_of_secrets (u1 u2 : User)
    (hid : u1.id = u2.id) (hfn : u1.firstName = u2.firstName)
    (hln : u1.lastName = u2.lastName) (hem : u1.email = u2.email)
    (hro : u1.role = u2.role) (hst : u1.status = u2.status)
    (hpi : u1.profileImage = u2.profileImage)
    (hph : u1.phoneNumber = u2.phoneNumber)
    (hor : u1.organizationName = u2.organizationName)
    (hex : u1.expertiseArea = u2.expertiseArea)
    (hvl : u1.verificationLevel = u2.verificationLevel)
    (hla : u1.lastActiveAt = u2.lastActiveAt)
    (hpr : u1.preferences = u2.preferences)
    (hre : u1.resetPasswordExpires = u2.resetPasswordExpires)
    (hev : u1.emailVerifiedAt = u2.emailVerifiedAt) :
    u1.toJSON = u2.toJSON := by
  simp [User.toJSON, hid, hfn, hln, hem, hro, hst, hpi, hph, hor, hex, hvl,
    hla, hpr, hre, hev]

theorem toJSON_independent_of_secrets_witness :
    citizenUser.password ≠ citizenUserAltSecrets.password ∧
    citizenUser.resetPasswordToken ≠ citizenUserAltSecrets.resetPasswordToken ∧
    citizenUser.emailVerificationToken ≠ citizenUserAltSecrets.emailVerificationToken ∧
    citizenUser.toJSON = citizenUserAltSecrets.toJSON :=
  ⟨by decide, by decide, by decide,
    toJSON_independent_of_secrets citizenUser citizenUserAltSecrets
      rfl rfl rfl rfl rfl rfl rfl rfl rfl rfl rfl rfl rfl rfl rfl⟩

/-- C2: POST /api/reports/:id/reject answers a validation error — and
leaves every field of the stored report unchanged — whenever the supplied
reason is absent or its trimmed length is below 10 or above 1000
characters; a rejection succeeds only for an actor with verification
rights on a pending report with an in-range reason, and a success writes
status, reason, verifier and timestamp together (no partial write), while
any failure writes nothing. -/
theorem reject_validates_reason (actor : User) (report : Report)
    (reason : Option String) (now : Nat) :
    (validReason reason = false →
      (∃ e, rejectReport actor report reason now = Except.error e) ∧
      (requireRole [Role.verifier, Role.analyst, Role.admin] actor = true →
        rejectReport actor report reason now = Except.error ApiError.validationFailed) ∧
      runUpdate report (rejectReport actor report reason now) = report)
    ∧ (∀ s, rejectReport actor report reason now = Except.ok s →
        requireRole [Role.verifier, Role.analyst, Role.admin] actor = true ∧
        report.status = Status.pending ∧
        (∃ t, reason = some t ∧ 10 ≤ (strTrim t).length ∧
          (strTrim t).length ≤ 1000 ∧ s.rejectionReason = some (strTrim t)) ∧
        s.status = Status.rejected ∧ s.verifiedById = some actor.id ∧
        s.verifiedAt = some now)
    ∧ (∀ e, rejectReport actor report reason now = Except.error e →
        runUpdate report (rejectReport actor report reason now) = report) := by
  refine ⟨?_, ?_, ?_⟩
  · intro hbad
    by_cases h1 : requireRole [Role.verifier, Role.analyst, Role.admin] actor = true
    · have herr : rejectReport actor report reason now =
          Except.error ApiError.validationFailed := by
        simp [rejectReport, h1, hbad]
      exact ⟨⟨_, herr⟩, fun _ => herr, by simp [runUpdate, herr]⟩
    · have herr : rejectReport actor report reason now =
          Except.error ApiError.accessDenied := by
        simp [rejectReport, h1]
      exact ⟨⟨_, herr⟩, fun hc => absurd hc h1, by simp [runUpdate, herr]⟩
  · intro s hs
    obtain ⟨h1, h2, h3, hrec⟩ := rejectReport_ok_inv actor report reason now s hs
    rcases reason with _ | t
    · simp [validReason] at h2
    · simp [validReason] at h2
      subst hrec
      exact ⟨h1, h3, ⟨t, rfl, h2.1, h2.2, rfl⟩, rfl, rfl, rfl⟩
  · intro e he
    simp [runUpdate, he]

theorem reject_validates_reason_witness :
    (∃ e, rejectReport verifierUser sampleReport none 2000 = Except.error e) ∧
    rejectReport verifierUser sampleReport none 2000 =
      Except.error ApiError.validationFailed ∧
    runUpdate sampleReport (rejectReport verifierUser sampleReport none 2000) =
      sampleReport := by
  have h := (reject_validates_reason verifierUser sampleReport none 2000).1 (by rfl)
  exact ⟨h.1, h.2.1 (by decide), h.2.2⟩

/-- C2 counterexample: a citizen's reject request with an absent reason
fails with the authorization error, not a validation error — the
requireRole middleware answers 403 before the reason validator runs — so
"an absent or out-of-range reason fails with a validation error" does not
hold for every request, though the record is still left unchanged. -/
theorem reject_bad_reason_not_always_validation_error :
    rejectReport citizenUser sampleReport none 2000 =
      Except.error ApiError.accessDenied ∧
    ApiError.accessDenied ≠ ApiError.validationFailed ∧
    runUpdate sampleReport (rejectReport citizenUser sampleReport none 2000) =
      sampleReport :=
  ⟨rfl, by decide, rfl⟩

/-- C4: every record POST /api/reports stores for a valid creation input
starts with status 'pending', no verifier id, no verification timestamp,
and a non-empty public code that differs from the public code of every
already stored report (the column's unique constraint makes a colliding
insert fail, so a stored record's code is unique). -/
theorem create_pending_unique_publicId (actorId : Nat) (inp : CreateInput)
    (db : List Report) (nowMs seed newId : Nat) (r : Report)
    (h : createReport actorId inp db nowMs seed newId = Except.ok r) :
    r.status = Status.pending ∧ r.verifiedById = none ∧ r.verifiedAt = none ∧
    r.publicId ≠ "" ∧ ∀ x ∈ db, x.publicId ≠ r.publicId := by
  obtain ⟨hval, hrec, huniq⟩ := createReport_ok_inv actorId inp db nowMs seed newId r h
  rw [beforeCreate_eq nowMs seed (initialRecord actorId newId inp)
    (by simp [initialRecord])] at hrec
  subst hrec
  exact ⟨rfl, rfl, rfl, by simpa using genPublicId_ne_empty nowMs seed, huniq⟩

theorem create_pending_unique_publicId_witness :
    sampleReport.status = Status.pending ∧ sampleReport.verifiedById = none ∧
    sampleReport.verifiedAt = none ∧ sampleReport.publicId ≠ "" ∧
    ∀ x ∈ ([] : List Report), x.publicId ≠ sampleReport.publicId :=
  create_pending_unique_publicId 1 sampleInput [] 1000 777 5 sampleReport (by rfl)

/-- C9: the unauthenticated GET /api/reports/public/:publicId endpoint
returns a report only when its visibility is 'public' and its status is
'verified' or 'resolved'; when every stored report bearing the requested
public id fails that condition (pending, rejected, under review,
soft-deleted or non-public), it answers 404 and returns no report data. -/
theorem public_endpoint_filters (db : List Report) (pid : String) :
    (∀ r, getPublicReport db pid = Except.ok r →
      r.publicId = pid ∧ r.visibility = Visibility.public ∧
      (r.status = Status.verified ∨ r.status = Status.resolved))
    ∧ (∀ r ∈ db, r.publicId = pid →
      ¬(r.visibility = Visibility.public ∧
        (r.status = Status.verified ∨ r.status = Status.resolved)) →
      (∀ x ∈ db, x.publicId = pid → x = r) →
      getPublicReport db pid = Except.error ApiError.notFound) := by
  constructor
  · intro r h
    unfold getPublicReport at h
    cases hf : db.find? (publicLookupMatch pid) with
    | none => rw [hf] at h; exact absurd h (by simp)
    | some x =>
      rw [hf] at h
      rw [Except.ok.injEq] at h
      subst h
      have hm := List.find?_some hf
      simpa [publicLookupMatch, and_assoc] using hm
  · intro r hr hpid hfail huniq
    have hnone : db.find? (publicLookupMatch pid) = none := by
      rw [List.find?_eq_none]
      intro x hx hmx
      simp [publicLookupMatch, and_assoc] at hmx
      obtain ⟨hp, hv, hs⟩ := hmx
      have hxr : x = r := huniq x hx hp
      subst hxr
      exact hfail ⟨hv, hs⟩
    simp [getPublicReport, hnone]

theorem public_endpoint_filters_witness :
    getPublicReport fixtureDb "RPTPEND01" = Except.error ApiError.notFound ∧
    getPublicReport fixtureDb "RPTPUBOK1" = Except.ok verifiedPublicReport ∧
    verifiedPublicReport.visibility = Visibility.public ∧
    (verifiedPublicReport.status = Status.verified ∨
      verifiedPublicReport.status = Status.resolved) := by
  have hok : getPublicReport fixtureDb "RPTPUBOK1" =
      Except.ok verifiedPublicReport := by rfl
  have hprops := (public_endpoint_filters fixtureDb "RPTPUBOK1").1
    verifiedPublicReport hok
  refine ⟨?_, hok, hprops.2.1, hprops.2.2⟩
  exact (public_endpoint_filters fixtureDb "RPTPEND01").2 pendingFixtureReport
    (by decide) (by decide) (by decide) (by decide)

/-- C3 counterexample: a report created with severity 'low' and urgency
'routine' (so isEmergency = false) keeps isEmergency = false after a PUT
that raises its severity to 'critical': the beforeUpdate hook never
recomputes the flag, so it is not recomputed whenever severity or urgency
changes. -/
theorem isEmergency_stale_after_update :
    createReport 1 sampleInput [] 1000 777 5 = Except.ok sampleReport ∧
    putReport citizenUser sampleReport none none
        [FieldUpdate.severity Severity.critical] 2000 =
      Except.ok { sampleReport with severity := Severity.critical } ∧
    ({ sampleReport with severity := Severity.critical } : Report).severity =
      Severity.critical ∧
    ({ sampleReport with severity := Severity.critical } : Report).isEmergency =
      false :=
  ⟨rfl, rfl, rfl, rfl⟩

/-- C3 amended: isEmergency equals (severity = critical OR urgency =
emergency) immediately after creation, but the beforeUpdate hook leaves
the flag untouched, so updates that change severity or urgency do not
recompute it and the equality can go stale. -/
theorem isEmergency_computed_at_creation :
    (∀ actorId inp db nowMs seed newId r,
      createReport actorId inp db nowMs seed newId = Except.ok r →
      r.isEmergency = (decide (r.severity = Severity.critical) ||
        decide (r.urgency = Urgency.emergency)))
    ∧ ∀ orig now r, (beforeUpdate orig now r).isEmergency = r.isEmergency := by
  constructor
  · intro actorId inp db nowMs seed newId r h
    obtain ⟨_, hrec, _⟩ := createReport_ok_inv actorId inp db nowMs seed newId r h
    rw [beforeCreate_eq nowMs seed (initialRecord actorId newId inp)
      (by simp [initialRecord])] at hrec
    subst hrec
    rfl
  · exact fun orig now r => beforeUpdate_isEmergency orig now r

theorem isEmergency_computed_at_creation_witness :
    sampleReport.isEmergency =
      (decide (sampleReport.severity = Severity.critical) ||
        decide (sampleReport.urgency = Urgency.emergency)) :=
  isEmergency_computed_at_creation.1 1 sampleInput [] 1000 777 5 sampleReport rfl

/-- C5 counterexample: from a freshly created pending report, a verifier
PUT with status 'rejected' and no rejection reason is accepted and stores
a rejected report whose rejectionReason is null, so "rejectionReason is
non-null iff status = rejected" fails on a state reachable through the
API's create and update operations. -/
theorem rejected_without_reason_reachable :
    createReport 1 sampleInput [] 1000 777 5 = Except.ok sampleReport ∧
    putReport verifierUser sampleReport (some Status.rejected) none [] 2000 =
      Except.ok { sampleReport with
        status := Status.rejected
        verifiedById := some 2
        verifiedAt := some 2000 } ∧
    ({ sampleReport with
        status := Status.rejected
        verifiedById := some 2
        verifiedAt := some 2000 } : Report).status = Status.rejected ∧
    ({ sampleReport with
        status := Status.rejected
        verifiedById := some 2
        verifiedAt := some 2000 } : Report).rejectionReason = none :=
  ⟨rfl, rfl, rfl, rfl⟩

/-- C5 amended: over the dedicated endpoints — create, POST verify and
POST reject — rejectionReason is non-null exactly on rejected reports
(creation stores a null reason on a pending report, verify preserves a
null reason while moving pending to verified, and reject always stores an
in-range reason); the equivalence does not extend to PUT, which can
reject without a reason, nor to operations that keep a stale reason. -/
theorem reason_iff_rejected_on_dedicated_routes :
    (∀ actorId inp db nowMs seed newId r,
      createReport actorId inp db nowMs seed newId = Except.ok r →
      reasonMatchesStatus r)
    ∧ (∀ actor report vl now s, reasonMatchesStatus report →
      verifyReport actor report vl now = Except.ok s → reasonMatchesStatus s)
    ∧ (∀ actor report reason now s,
      rejectReport actor report reason now = Except.ok s →
      reasonMatchesStatus s) := by
  refine ⟨?_, ?_, ?_⟩
  · intro actorId inp db nowMs seed newId r h
    obtain ⟨_, hrec, _⟩ := createReport_ok_inv actorId inp db nowMs seed newId r h
    rw [beforeCreate_eq nowMs seed (initialRecord actorId newId inp)
      (by simp [initialRecord])] at hrec
    subst hrec
    simp [reasonMatchesStatus, initialRecord]
  · intro actor report vl now s hinv h
    obtain ⟨_, hpend, hrec⟩ := verifyReport_ok_inv actor report vl now s h
    have hnone : report.rejectionReason = none := by
      by_contra hc
      have hrej := hinv.mp hc
      rw [hpend] at hrej
      exact Status.noConfusion hrej
    subst hrec
    simp [reasonMatchesStatus, hnone]
  · intro actor report reason now s h
    obtain ⟨_, hval, _, hrec⟩ := rejectReport_ok_inv actor report reason now s h
    rcases reason with _ | t
    · simp [validReason] at hval
    · subst hrec
      simp [reasonMatchesStatus]

theorem reason_iff_rejected_witness :
    reasonMatchesStatus { sampleReport with
      status := Status.rejected
      rejectionReason := some (strTrim "not enough detail provided")
      verifiedById := some 2
      verifiedAt := some 2000 } :=
  reason_iff_rejected_on_dedicated_routes.2.2 verifierUser sampleReport
    (some "not enough detail provided") 2000
    { sampleReport with
      status := Status.rejected
      rejectionReason := some (strTrim "not enough detail provided")
      verifiedById := some 2
      verifiedAt := some 2000 } rfl

/-- C6 counterexample: a PUT /api/reports/:id whose body contains a
publicId key overwrites the report's public code, because the
otherUpdates loop copies every non-status, non-rejectionReason body key
into the record verbatim; so the publicId assigned at creation can change
under an accepted update payload. -/
theorem publicId_overwritten_by_put :
    putReport citizenUser sampleReport none none
        [FieldUpdate.publicId "FORGED"] 2000 =
      Except.ok { sampleReport with publicId := "FORGED" } ∧
    ({ sampleReport with publicId := "FORGED" } : Report).publicId ≠
      sampleReport.publicId :=
  ⟨rfl, by decide⟩

/-- C6 amended: the public code assigned by the beforeCreate hook is
preserved by verify, reject, soft delete, and by every accepted PUT whose
payload carries no publicId key; only a PUT payload that itself contains
a publicId key can change it. -/
theorem publicId_preserved_without_publicId_key :
    (∀ actor report vl now s, verifyReport actor report vl now = Except.ok s →
      s.publicId = report.publicId)
    ∧ (∀ actor report reason now s,
      rejectReport actor report reason now = Except.ok s →
      s.publicId = report.publicId)
    ∧ (∀ actor report now s, deleteReport actor report now = Except.ok s →
      s.publicId = report.publicId)
    ∧ (∀ actor report status? rr? updates now s,
      (∀ v, FieldUpdate.publicId v ∉ updates) →
      putReport actor report status? rr? updates now = Except.ok s →
      s.publicId = report.publicId) := by
  refine ⟨?_, ?_, ?_, ?_⟩
  · intro actor report vl now s h
    obtain ⟨_, _, hrec⟩ := verifyReport_ok_inv actor report vl now s h
    subst hrec
    rfl
  · intro actor report reason now s h
    obtain ⟨_, _, _, hrec⟩ := rejectReport_ok_inv actor report reason now s h
    subst hrec
    rfl
  · intro actor report now s h
    simp only [deleteReport] at h
    split at h
    · exact absurd h (by simp)
    · rw [Except.ok.injEq] at h
      subst h
      rw [beforeUpdate_publicId]
  · intro actor report status? rr? updates now s hno h
    exact putReport_ok_publicId actor report status? rr? updates now s hno h

theorem publicId_preserved_witness :
    ({ sampleReport with severity := Severity.critical } : Report).publicId =
      sampleReport.publicId :=
  publicId_preserved_without_publicId_key.2.2.2 citizenUser sampleReport
    none none [FieldUpdate.severity Severity.critical] 2000
    { sampleReport with severity := Severity.critical }
    (by intro v hv; simp at hv) rfl

end Aquasentra
